import Mathlib

/-!
Shallow embedding of the Fin-Pilot query-answering core:
  * `python_backend/binance/agents/query_agent/langgraph_agent.py`
    (the `BinanceLangGraphAgent` pipeline), and
  * `python_backend/binance/vectordb_storage/storage.py`
    (`VectorDBStorage.search_similar_portfolios_sync`, `_prune_old_records`,
    `_get_all_portfolio_ids`).

External effects (LLM chains, the Tavily search tool, the Pinecone vector
store) are modelled as oracle functions returning `Except String α`:
`.error e` stands for the Python call raising an exception whose `str` is
`e`, `.ok v` for a normal return.  Parsed JSON payloads are kept abstract
as a type parameter `P` together with explicit `dumps`/`loads` functions,
since no behaviour under verification inspects JSON internals.
-/

namespace FinPilot

/-- Whether `pat` is an initial segment of `s` (over character lists). -/
def pfxAt : List Char → List Char → Bool
  | [], _ => true
  | _ :: _, [] => false
  | a :: as, b :: bs => a == b && pfxAt as bs

/-- Whether `pat` occurs as a contiguous sublist of `s`. -/
def occursIn (pat : List Char) : List Char → Bool
  | [] => pfxAt pat []
  | c :: cs => pfxAt pat (c :: cs) || occursIn pat cs

/-- Model of Python's substring test `pat in s` (for non-empty `pat`). -/
def strContains (s pat : String) : Bool :=
  occursIn pat.data s.data

/-- Model of Python's `str.lower()` (ASCII case folding). -/
def strToLower (s : String) : String :=
  ⟨s.data.map Char.toLower⟩

/-! ## Vector store documents (storage.py) -/

/-- The metadata fields of a stored LangChain `Document` that the code
reads.  `none` models an absent key. -/
structure DocMeta where
  timestamp : Option String
  portfolio_id : Option String
  chunk_id : Option String
deriving DecidableEq, Repr

/-- A document returned by `vectorstore.similarity_search`. -/
structure Doc where
  page_content : String
  meta : DocMeta
deriving DecidableEq, Repr

/-- A search-result item produced by `search_similar_portfolios_sync`
(`{'timestamp': …, 'portfolio': …, 'chunk_id': …}`). -/
structure SPItem (P : Type) where
  timestamp : String
  portfolio : P
  chunk_id : Option String
deriving DecidableEq, Repr

/-- Oracle for the Pinecone-backed `vectorstore.similarity_search` calls.
`searchComplete` is the call with filter
`{"type": "portfolio_data", "is_complete": True}`, `searchAll` the call
with filter `{"type": "portfolio_data"}`. -/
structure VectorStore where
  searchComplete : String → Nat → Except String (List Doc)
  searchAll : String → Nat → Except String (List Doc)

/-- `MAX_PORTFOLIO_RECORDS` (storage.py line 19). -/
def MAX_PORTFOLIO_RECORDS : Nat := 5

/-- The document-gathering phase of `search_similar_portfolios_sync`
(storage.py lines 370-389): fetch complete docs; if fewer than `top_k`,
also fetch chunks with `k = top_k * 2` and concatenate. -/
def sspDocs (vs : VectorStore) (query : String) (top_k : Nat) :
    Except String (List Doc) :=
  match vs.searchComplete query top_k with
  | .error e => .error e
  | .ok complete_docs =>
    if complete_docs.length ≥ top_k then .ok complete_docs
    else
      match vs.searchAll query (top_k * 2) with
      | .error e => .error e
      | .ok chunk_docs => .ok (complete_docs ++ chunk_docs)

/-- The per-document loop of `search_similar_portfolios_sync`
(storage.py lines 395-426): skip docs without a truthy `portfolio_id` or
with one already seen; skip docs whose metadata lacks `timestamp` (the
`KeyError` is caught by the per-document handler and the loop continues);
parse `page_content` with `loads`, falling back to `mkRaw` (the
`{"raw_content": …}` dict) on parse failure; stop once `top_k` items are
accumulated. -/
def collectPortfolios {P : Type} (loads : String → Option P)
    (mkRaw : String → P) (top_k : Nat) :
    List Doc → List String → List (SPItem P) → List (SPItem P)
  | [], _, acc => acc.reverse
  | doc :: rest, seen, acc =>
    match doc.meta.portfolio_id with
    | none => collectPortfolios loads mkRaw top_k rest seen acc
    | some pid =>
      if pid = "" ∨ pid ∈ seen then
        collectPortfolios loads mkRaw top_k rest seen acc
      else
        match doc.meta.timestamp with
        | none => collectPortfolios loads mkRaw top_k rest seen acc
        | some ts =>
          let p := (loads doc.page_content).getD (mkRaw doc.page_content)
          let acc' : List (SPItem P) :=
            ⟨ts, p, doc.meta.chunk_id⟩ :: acc
          if acc'.length ≥ top_k then acc'.reverse
          else collectPortfolios loads mkRaw top_k rest (pid :: seen) acc'

/-- `VectorDBStorage.search_similar_portfolios_sync` (storage.py lines
367-441).  The trailing phase (lines 428-441) sorts the accumulated items
by timestamp, newest first (Python's stable `sort` with `reverse=True`),
and returns only the first, or `[]` when nothing was accumulated; any
exception from the underlying similarity searches yields `[]`. -/
def search_similar_portfolios_sync {P : Type} (vs : VectorStore)
    (loads : String → Option P) (mkRaw : String → P)
    (query : String) (top_k : Nat) : List (SPItem P) :=
  match sspDocs vs query top_k with
  | .error _ => []
  | .ok docs =>
    let sims := collectPortfolios loads mkRaw top_k docs [] []
    if sims.isEmpty then []
    else (sims.mergeSort (fun a b => decide (b.timestamp ≤ a.timestamp))).take 1

/-- Python-dict insertion `d[k] = v` on an insertion-ordered association
list: overwrite in place when `k` is present, else append. -/
def dictInsert (d : List (String × String)) (k v : String) :
    List (String × String) :=
  if d.any (fun p => p.1 = k) then
    d.map (fun p => if p.1 = k then (k, v) else p)
  else d ++ [(k, v)]

/-- The dictionary-building phase of `_get_all_portfolio_ids`
(storage.py lines 238-245): keep docs whose metadata has a truthy
`portfolio_id`, a truthy `timestamp` and a `chunk_id` key, remembering
the (last-written) timestamp per portfolio id. -/
def portfolioDict (docs : List Doc) : List (String × String) :=
  docs.foldl (fun d doc =>
    match doc.meta.portfolio_id, doc.meta.timestamp, doc.meta.chunk_id with
    | some pid, some ts, some _ =>
      if pid = "" ∨ ts = "" then d else dictInsert d pid ts
    | _, _, _ => d) []

/-- The sorting phase of `_get_all_portfolio_ids` (storage.py lines
247-249): the unique (portfolio id, timestamp) pairs sorted by
timestamp, oldest first (Python's stable `sorted`). -/
def portfolioIdTimestamps (docs : List Doc) : List (String × String) :=
  (portfolioDict docs).mergeSort (fun a b => decide (a.2 ≤ b.2))

/-- `VectorDBStorage._get_all_portfolio_ids` (storage.py lines 223-256):
query up to 1000 portfolio docs and return the unique portfolio ids
sorted by timestamp, oldest first; on failure return `[]`. -/
def get_all_portfolio_ids (vs : VectorStore) : List String :=
  match vs.searchAll "portfolio" 1000 with
  | .error _ => []
  | .ok docs => (portfolioIdTimestamps docs).map Prod.fst

/-- `VectorDBStorage._prune_old_records` (storage.py lines 192-221),
observed through the list of portfolio ids it deletes (it calls
`_delete_portfolio_record` on exactly these, in order): nothing when the
record count is within `MAX_PORTFOLIO_RECORDS`, otherwise
`portfolio_ids[:-MAX_PORTFOLIO_RECORDS]`, i.e. all but the last
`MAX_PORTFOLIO_RECORDS` of the oldest-first list.  Any exception is
swallowed (logged only), so the function is total. -/
def prune_old_records (vs : VectorStore) : List String :=
  let ids := get_all_portfolio_ids vs
  if ids.length ≤ MAX_PORTFOLIO_RECORDS then []
  else ids.take (ids.length - MAX_PORTFOLIO_RECORDS)

/-! ## Agent pipeline (langgraph_agent.py) -/

/-- One entry of `chat_history`: `{"role": …, "content": …}`. -/
structure ChatMsg where
  role : String
  content : String
deriving DecidableEq, Repr

/-- The `AgentState` TypedDict (langgraph_agent.py lines 21-29). -/
structure AgentState where
  query : String
  context : List String
  needs_web_search : Bool
  web_search_results : String
  response : String
  chat_history : List ChatMsg
  error : Option String
deriving DecidableEq, Repr

/-- One structured web-search hit: a dict whose `source`/`title`/
`content`/`snippet` keys may each be absent. -/
structure SearchHit where
  source : Option String
  title : Option String
  content : Option String
  snippet : Option String
deriving DecidableEq, Repr

/-- The dynamic value returned by the web search tool: either a list of
dict-shaped hits, or something that is not a list, carried by its Python
`str` rendering. -/
inductive SearchResults where
  | hits (l : List SearchHit)
  | other (rep : String)
deriving DecidableEq, Repr

/-- The external calls made by `BinanceLangGraphAgent`, as oracles.
`classifyChain` is the NEEDS_WEB_SEARCH/PORTFOLIO_DATA_ONLY chain of
`_classify_query`; `storeSearch` is
`vector_storage.search_similar_portfolios_sync`; `searchTool` the Tavily
tool invocation; `genChain` the response chain of `_generate_response`
applied to (query, portfolio_context argument, web_search_section);
`simpleClassify` the SIMPLE/COMPLEX chain of `_is_simple_query`;
`simpleChain` the chain of `_get_simple_response`; `dumps` is
`json.dumps(·, indent=2)` over the abstract payload type. -/
structure Oracles (P : Type) where
  classifyChain : String → Except String String
  dumps : P → String
  storeSearch : String → Nat → Except String (List (SPItem P))
  searchTool : String → Except String SearchResults
  genChain : String → String → String → Except String String
  simpleClassify : String → Except String String
  simpleChain : String → Except String String

/-- `BinanceLangGraphAgent._classify_query` (lines 114-156): run the
classification chain and set `needs_web_search` to whether the output
contains "NEEDS_WEB_SEARCH"; on exception record the error and leave the
rest of the state unchanged. -/
def classify_query (chain : String → Except String String)
    (state : AgentState) : AgentState :=
  match chain state.query with
  | .ok classification =>
    { state with
      needs_web_search := strContains classification "NEEDS_WEB_SEARCH" }
  | .error e =>
    { state with error := some ("Error classifying query: " ++ e) }

/-- The fallback context when the store returns nothing (line 190). -/
def noDataFallback : String :=
  "No relevant portfolio data was found. The system may need more portfolio data to answer this query effectively."

/-- The context set when retrieval raises (line 200). -/
def retrievalErrorContext : String :=
  "Could not retrieve portfolio data due to an error."

/-- Rendering of one retrieved snapshot (line 177). -/
def renderSnapshot {P : Type} (dumps : P → String) (item : SPItem P) :
    String :=
  "LATEST PORTFOLIO DATA (as of " ++ item.timestamp ++ "):\n" ++
    dumps item.portfolio

/-- `BinanceLangGraphAgent._retrieve_context` (lines 158-201): ask the
store for the single top match (`top_k=1`), render each returned item,
substitute the explanatory fallback when the rendered context is empty,
and on exception record the error and use the error context. -/
def retrieve_context {P : Type} (dumps : P → String)
    (search : String → Nat → Except String (List (SPItem P)))
    (state : AgentState) : AgentState :=
  match search state.query 1 with
  | .ok similar_portfolios =>
    let context := similar_portfolios.map (renderSnapshot dumps)
    if context.isEmpty then { state with context := [noDataFallback] }
    else { state with context := context }
  | .error e =>
    { state with
      error := some ("Error retrieving context: " ++ e),
      context := [retrievalErrorContext] }

/-- `BinanceLangGraphAgent._should_search_web` (lines 203-205). -/
def should_search_web (state : AgentState) : Bool :=
  state.needs_web_search

/-- The fixed crypto-domain keyword set of `_search_web` (line 214). -/
def cryptoTerms : List String :=
  ["crypto", "bitcoin", "binance", "cryptocurrency"]

/-- The query-augmentation step of `_search_web` (lines 213-215): append
" cryptocurrency binance" exactly when the lowercased query contains none
of the crypto-domain keywords. -/
def augmentQuery (query : String) : String :=
  if cryptoTerms.any (fun term => strContains (strToLower query) term) then
    query
  else query ++ " cryptocurrency binance"

/-- Formatting of one list-shaped hit (lines 236-242), with the literal
placeholders for missing fields. -/
def formatHit (r : SearchHit) : String :=
  "Source: " ++ r.source.getD "Unknown source" ++
  "\nTitle: " ++ r.title.getD "No title" ++
  "\nContent: " ++ r.content.getD (r.snippet.getD "No content available") ++
  "\n"

/-- The result-normalisation phase of `_search_web` (lines 232-246):
format each hit of a list result, or a single truncated-repr line for a
non-list result. -/
def formatSearchResults : SearchResults → List String
  | .hits l => l.map formatHit
  | .other rep =>
    ["Search resulted in unexpected format: " ++ rep.take 200 ++ "..."]

/-- `BinanceLangGraphAgent._search_web` (lines 207-266): augment the
query, invoke the tool — substituting an error-hit list when the
invocation raises (inner handler, lines 226-229, which records no error
on state) — then normalise and join the formatted hits.  The outer
handler (lines 259-266) is unreachable in this model because nothing
after the inner `try` can raise on these shapes; it is represented
faithfully by the fact that the function is total. -/
def search_web (tool : String → Except String SearchResults)
    (state : AgentState) : AgentState :=
  let search_query := augmentQuery state.query
  let search_results : SearchResults :=
    match tool search_query with
    | .ok r => r
    | .error e =>
      .hits [⟨some "Error", some "Search Failed",
              some ("Web search tool error: " ++ e), none⟩]
  let formatted_results := formatSearchResults search_results
  let formatted_text :=
    if formatted_results.isEmpty then "No relevant search results found."
    else String.intercalate "\n" formatted_results
  { state with web_search_results := formatted_text }

/-- The `web_search_section` argument passed to the response chain
(lines 302-305). -/
def webSearchSection (state : AgentState) : String :=
  if state.web_search_results ≠ "" then
    "Web Search Results:\n" ++ state.web_search_results
  else "No external data was needed to answer this query."

/-- The `portfolio_context` argument passed to the response chain
(lines 274, 319). -/
def portfolioContextArg (state : AgentState) : String :=
  let pc := String.intercalate "\n\n" state.context
  if pc ≠ "" then pc else "No relevant portfolio data found."

/-- The apology set by `_generate_response` on failure (line 341). -/
def generateApology : String :=
  "I'm sorry, I encountered an error while generating a response. Please try again."

/-- `BinanceLangGraphAgent._generate_response` (lines 268-342): invoke
the response chain; on success set `response` and append the
user/assistant pair to `chat_history`; on exception record the error and
set the apology response (history untouched). -/
def generate_response (chain : String → String → String → Except String String)
    (state : AgentState) : AgentState :=
  match chain state.query (portfolioContextArg state) (webSearchSection state) with
  | .ok response =>
    { state with
      response := response,
      chat_history := state.chat_history ++
        [⟨"user", state.query⟩, ⟨"assistant", response⟩] }
  | .error e =>
    { state with
      error := some ("Error generating response: " ++ e),
      response := generateApology }

/-! ### The workflow graph (`_create_graph`, lines 82-112) -/

/-- The nodes of the LangGraph workflow. -/
inductive Node where
  | classify
  | retrieve
  | searchW
  | generate
deriving DecidableEq, Repr

/-- Run one node's function on the state. -/
def stepNode {P : Type} (O : Oracles P) : Node → AgentState → AgentState
  | .classify, s => classify_query O.classifyChain s
  | .retrieve, s => retrieve_context O.dumps O.storeSearch s
  | .searchW, s => search_web O.searchTool s
  | .generate, s => generate_response O.genChain s

/-- The edge structure of `_create_graph`: `classify_query →
retrieve_context`, a conditional edge out of `retrieve_context` gated by
`_should_search_web` with destinations `search_web` (True) and
`generate_response` (False), `search_web → generate_response`, and
`generate_response → END` (`none`).  LangGraph evaluates the gate on the
state output by the node. -/
def nextNode (n : Node) (s : AgentState) : Option Node :=
  match n with
  | .classify => some .retrieve
  | .retrieve => some (if should_search_web s then .searchW else .generate)
  | .searchW => some .generate
  | .generate => none

/-- Execute the workflow from node `n`, fuel-bounded; returns the final
state and the trace of visited nodes.  Fuel 4 covers both paths of the
graph. -/
def runFrom {P : Type} (O : Oracles P) :
    Nat → Node → AgentState → AgentState × List Node
  | 0, _, s => (s, [])
  | fuel + 1, n, s =>
    let s' := stepNode O n s
    match nextNode n s' with
    | none => (s', [n])
    | some n' =>
      let r := runFrom O fuel n' s'
      (r.1, n :: r.2)

/-- `self.graph.invoke(state)`: run the compiled workflow from the entry
point `classify_query`. -/
def graphInvoke {P : Type} (O : Oracles P) (st : AgentState) : AgentState :=
  (runFrom O 4 .classify st).1

/-- The sequence of nodes executed by `self.graph.invoke(state)`. -/
def graphTrace {P : Type} (O : Oracles P) (st : AgentState) : List Node :=
  (runFrom O 4 .classify st).2

/-! ### Entry points -/

/-- `BinanceLangGraphAgent._is_simple_query` (lines 344-395): whether the
chain output contains "SIMPLE"; on exception treat as complex
(`False`). -/
def is_simple_query (chain : String → Except String String)
    (query : String) : Bool :=
  match chain query with
  | .ok classification => strContains classification "SIMPLE"
  | .error _ => false

/-- The result dict of `process_query`/`_get_simple_response`.
`chat_history = none` and `message = none` model absent keys. -/
structure QueryResult where
  status : String
  response : String
  chat_history : Option (List ChatMsg)
  message : Option String
deriving DecidableEq, Repr

/-- The fixed fallback greeting of `_get_simple_response` (line 435). -/
def simpleFallback : String :=
  "Hello! I'm your Binance portfolio assistant. I can help you with information about your cryptocurrency holdings, portfolio performance, and market trends. How can I assist you today?"

/-- `BinanceLangGraphAgent._get_simple_response` (lines 397-444): both
branches return status "success" with a two-entry history. -/
def get_simple_response (chain : String → Except String String)
    (query : String) : QueryResult :=
  match chain query with
  | .ok response =>
    { status := "success", response := response,
      chat_history := some [⟨"user", query⟩, ⟨"assistant", response⟩],
      message := none }
  | .error _ =>
    { status := "success", response := simpleFallback,
      chat_history := some [⟨"user", query⟩, ⟨"assistant", simpleFallback⟩],
      message := none }

/-- The initial `AgentState` built by `process_query` (lines 466-474). -/
def initialState (query : String) : AgentState :=
  { query := query, context := [], needs_web_search := false,
    web_search_results := "", response := "", chat_history := [],
    error := none }

/-- `BinanceLangGraphAgent.process_query` (lines 446-503): small-talk
short-circuit, otherwise invoke the graph on the initial state and report
"error" with the recorded message (and no `chat_history` key) when
`result["error"]` is set, else "success" with response and history. -/
def process_query {P : Type} (O : Oracles P) (query : String) : QueryResult :=
  if is_simple_query O.simpleClassify query then
    get_simple_response O.simpleChain query
  else
    let result := graphInvoke O (initialState query)
    match result.error with
    | some e =>
      { status := "error", response := result.response,
        chat_history := none, message := some e }
    | none =>
      { status := "success", response := result.response,
        chat_history := some result.chat_history, message := none }

/-- The state after the `classify_query` and `retrieve_context` nodes
(the state on which the conditional edge is evaluated). -/
def pipeS2 {P : Type} (O : Oracles P) (st : AgentState) : AgentState :=
  retrieve_context O.dumps O.storeSearch (classify_query O.classifyChain st)

/-- The state entering the `generate_response` node: after the optional
`search_web` node on the web branch. -/
def pipeS3 {P : Type} (O : Oracles P) (st : AgentState) : AgentState :=
  if should_search_web (pipeS2 O st) then search_web O.searchTool (pipeS2 O st)
  else pipeS2 O st

/-! ### Concrete fixtures for evaluating the model on closed inputs -/

/-- A stored snapshot item with a concrete timestamp. -/
def itemF : SPItem String := ⟨"2024-05-05T10:00:00", "\x7b\"total\": 1\x7d", some "c1"⟩

/-- Oracles for a run on the web-search branch whose search tool raises
and whose other calls succeed. -/
def OWeb : Oracles String :=
  { classifyChain := fun _ => .ok "NEEDS_WEB_SEARCH",
    dumps := fun p => p,
    storeSearch := fun _ _ => .ok [itemF],
    searchTool := fun _ => .error "network down",
    genChain := fun _ _ _ => .ok "final answer",
    simpleClassify := fun _ => .ok "COMPLEX",
    simpleChain := fun _ => .ok "hello" }

/-- Oracles classifying every query as small talk. -/
def OSimple : Oracles String :=
  { OWeb with
    simpleClassify := fun _ => .ok "SIMPLE",
    simpleChain := fun _ => .ok "Hi! I can help with your portfolio." }

/-- Oracles whose classification and synthesis chains both raise. -/
def OGenFail : Oracles String :=
  { OWeb with
    classifyChain := fun _ => .error "llm down",
    genChain := fun _ _ _ => .error "boom" }

/-- Oracles for a run on the no-web branch. -/
def ONoWeb : Oracles String :=
  { OWeb with classifyChain := fun _ => .ok "PORTFOLIO_DATA_ONLY" }

/-- A pipeline state sitting on the web-search branch. -/
def sC3 : AgentState :=
  { initialState "What is the current price trend for ETH?" with
    needs_web_search := true }

/-- A stored document with the given timestamp and portfolio id. -/
def fixDoc (ts pid : String) : Doc := ⟨"\x7b\x7d", ⟨some ts, some pid, some "c0"⟩⟩

/-- Six distinct portfolio records, oldest first. -/
def docs6 : List Doc :=
  [fixDoc "2024-01-01" "p1", fixDoc "2024-01-02" "p2",
   fixDoc "2024-01-03" "p3", fixDoc "2024-01-04" "p4",
   fixDoc "2024-01-05" "p5", fixDoc "2024-01-06" "p6"]

/-- A store holding six portfolio records. -/
def vs6 : VectorStore := ⟨fun _ _ => .ok [], fun _ _ => .ok docs6⟩

/-- Two complete documents with distinct portfolio ids. -/
def docX : Doc := ⟨"\x7b\"a\": 1\x7d", ⟨some "2024-01-01", some "px", some "cx"⟩⟩

/-- See `docX`. -/
def docY : Doc := ⟨"\x7b\"b\": 2\x7d", ⟨some "2024-01-02", some "py", some "cy"⟩⟩

/-- A store returning `docX` and `docY` as complete documents. -/
def vsXY : VectorStore := ⟨fun _ _ => .ok [docX, docY], fun _ _ => .ok []⟩

/-- JSON parsing oracle for the trivial payload type `String`. -/
def loadsStr : String → Option String := fun s => some s

/-- Raw-content fallback for the trivial payload type `String`. -/
def mkRawStr : String → String := fun s => s

/-! ## Helper lemmas -/

theorem mergeSort_desc_take_one {α : Type} (key : α → String) (l : List α)
    (h : l ≠ []) :
    ∃ x, (l.mergeSort (fun a b => decide (key b ≤ key a))).take 1 = [x] ∧
      x ∈ l ∧ ∀ y ∈ l, key y ≤ key x := by
  have htrans : ∀ a b c : α, (fun a b => decide (key b ≤ key a)) a b →
      (fun a b => decide (key b ≤ key a)) b c →
      (fun a b => decide (key b ≤ key a)) a c := by
    intro a b c hab hbc
    simp only [decide_eq_true_eq] at *
    exact le_trans hbc hab
  have htotal : ∀ a b : α, (fun a b => decide (key b ≤ key a)) a b ||
      (fun a b => decide (key b ≤ key a)) b a := by
    intro a b
    simp only [Bool.or_eq_true, decide_eq_true_eq]
    exact le_total (key b) (key a)
  have hs := List.sorted_mergeSort htrans htotal l
  have hperm := List.mergeSort_perm l (fun a b => decide (key b ≤ key a))
  cases hm : l.mergeSort (fun a b => decide (key b ≤ key a)) with
  | nil =>
    rw [hm] at hperm
    exact absurd hperm.nil_eq.symm h
  | cons x t =>
    refine ⟨x, rfl, ?_, ?_⟩
    · have hx : x ∈ l.mergeSort (fun a b => decide (key b ≤ key a)) := by
        rw [hm]; exact List.mem_cons_self x t
      exact List.mem_mergeSort.1 hx
    · intro y hy
      have hy' : y ∈ x :: t := by
        rw [← hm]; exact List.mem_mergeSort.2 hy
      rcases List.mem_cons.1 hy' with h1 | h2
      · exact le_of_eq (by rw [h1])
      · rw [hm] at hs
        have := (List.pairwise_cons.1 hs).1 y h2
        simpa [decide_eq_true_eq] using this

theorem mergeSort_asc_pairwise {α : Type} (key : α → String) (l : List α) :
    (l.mergeSort (fun a b => decide (key a ≤ key b))).Pairwise
      (fun a b => key a ≤ key b) := by
  have htrans : ∀ a b c : α, (fun a b => decide (key a ≤ key b)) a b →
      (fun a b => decide (key a ≤ key b)) b c →
      (fun a b => decide (key a ≤ key b)) a c := by
    intro a b c hab hbc
    simp only [decide_eq_true_eq] at *
    exact le_trans hab hbc
  have htotal : ∀ a b : α, (fun a b => decide (key a ≤ key b)) a b ||
      (fun a b => decide (key a ≤ key b)) b a := by
    intro a b
    simp only [Bool.or_eq_true, decide_eq_true_eq]
    exact le_total (key a) (key b)
  have hs := List.sorted_mergeSort htrans htotal l
  exact hs.imp (fun hab => by simpa [decide_eq_true_eq] using hab)

theorem classify_query_query (c : String → Except String String)
    (s : AgentState) : (classify_query c s).query = s.query := by
  unfold classify_query
  cases c s.query <;> rfl

theorem classify_query_chat (c : String → Except String String)
    (s : AgentState) : (classify_query c s).chat_history = s.chat_history := by
  unfold classify_query
  cases c s.query <;> rfl

theorem retrieve_context_query {P : Type} (d : P → String)
    (f : String → Nat → Except String (List (SPItem P))) (s : AgentState) :
    (retrieve_context d f s).query = s.query := by
  unfold retrieve_context
  cases f s.query 1 with
  | ok items => simp only; split <;> rfl
  | error e => rfl

theorem retrieve_context_chat {P : Type} (d : P → String)
    (f : String → Nat → Except String (List (SPItem P))) (s : AgentState) :
    (retrieve_context d f s).chat_history = s.chat_history := by
  unfold retrieve_context
  cases f s.query 1 with
  | ok items => simp only; split <;> rfl
  | error e => rfl

theorem search_web_query (t : String → Except String SearchResults)
    (s : AgentState) : (search_web t s).query = s.query := rfl

theorem search_web_chat (t : String → Except String SearchResults)
    (s : AgentState) : (search_web t s).chat_history = s.chat_history := rfl

theorem search_web_error (t : String → Except String SearchResults)
    (s : AgentState) : (search_web t s).error = s.error := rfl

theorem pipeS2_query {P : Type} (O : Oracles P) (st : AgentState) :
    (pipeS2 O st).query = st.query := by
  unfold pipeS2
  rw [retrieve_context_query, classify_query_query]

theorem pipeS2_chat {P : Type} (O : Oracles P) (st : AgentState) :
    (pipeS2 O st).chat_history = st.chat_history := by
  unfold pipeS2
  rw [retrieve_context_chat, classify_query_chat]

theorem pipeS3_query {P : Type} (O : Oracles P) (st : AgentState) :
    (pipeS3 O st).query = st.query := by
  unfold pipeS3
  split
  · rw [search_web_query, pipeS2_query]
  · exact pipeS2_query O st

theorem pipeS3_chat {P : Type} (O : Oracles P) (st : AgentState) :
    (pipeS3 O st).chat_history = st.chat_history := by
  unfold pipeS3
  split
  · rw [search_web_chat, pipeS2_chat]
  · exact pipeS2_chat O st

theorem graphRun_eq {P : Type} (O : Oracles P) (st : AgentState) :
    graphInvoke O st = generate_response O.genChain (pipeS3 O st) ∧
    graphTrace O st =
      (if should_search_web (pipeS2 O st) then
        [Node.classify, Node.retrieve, Node.searchW, Node.generate]
       else [Node.classify, Node.retrieve, Node.generate]) := by
  cases h : should_search_web (pipeS2 O st) with
  | true =>
    have h' := h
    unfold pipeS2 at h'
    unfold pipeS3 pipeS2
    constructor <;>
      simp [graphInvoke, graphTrace, runFrom, stepNode, nextNode, h']
  | false =>
    have h' := h
    unfold pipeS2 at h'
    unfold pipeS3 pipeS2
    constructor <;>
      simp [graphInvoke, graphTrace, runFrom, stepNode, nextNode, h']

/-- C10: `search_similar_portfolios_sync` returns at most one item; on
any similarity-search failure it returns `[]`; and whenever the
per-document loop accumulated any candidates it returns exactly one
candidate whose timestamp is greatest (under string comparison) among the
accumulated candidates. -/
theorem claim_C10 : ∀ (P : Type) (vs : VectorStore)
    (loads : String → Option P) (mkRaw : String → P)
    (query : String) (top_k : Nat),
    (search_similar_portfolios_sync vs loads mkRaw query top_k).length ≤ 1
    ∧ (∀ e, sspDocs vs query top_k = Except.error e →
        search_similar_portfolios_sync vs loads mkRaw query top_k = [])
    ∧ (∀ docs, sspDocs vs query top_k = Except.ok docs →
        (collectPortfolios loads mkRaw top_k docs [] [] = [] →
          search_similar_portfolios_sync vs loads mkRaw query top_k = [])
        ∧ (collectPortfolios loads mkRaw top_k docs [] [] ≠ [] →
          ∃ item,
            search_similar_portfolios_sync vs loads mkRaw query top_k = [item]
            ∧ item ∈ collectPortfolios loads mkRaw top_k docs [] []
            ∧ ∀ x ∈ collectPortfolios loads mkRaw top_k docs [] [],
                x.timestamp ≤ item.timestamp)) := by
  intro P vs loads mkRaw query top_k
  refine ⟨?_, ?_, ?_⟩
  · cases hsd : sspDocs vs query top_k with
    | error e => simp [search_similar_portfolios_sync, hsd]
    | ok docs =>
      cases hcc : collectPortfolios loads mkRaw top_k docs [] [] with
      | nil => simp [search_similar_portfolios_sync, hsd, hcc]
      | cons a l =>
        simp [search_similar_portfolios_sync, hsd, hcc, List.length_take]
  · intro e he
    simp [search_similar_portfolios_sync, he]
  · intro docs hd
    constructor
    · intro hc
      simp [search_similar_portfolios_sync, hd, hc]
    · intro hc
      obtain ⟨x, hx1, hx2, hx3⟩ :=
        mergeSort_desc_take_one (fun it : SPItem P => it.timestamp) _ hc
      refine ⟨x, ?_, hx2, hx3⟩
      have hne : (collectPortfolios loads mkRaw top_k docs [] []).isEmpty
          = false := by
        cases hcc : collectPortfolios loads mkRaw top_k docs [] [] with
        | nil => exact absurd hcc hc
        | cons a l => rfl
      simp only [search_similar_portfolios_sync, hd, hne, Bool.false_eq_true,
        if_false]
      exact hx1

/-- Witness for `claim_C10` on a concrete two-document store. -/
theorem claim_C10_witness :
    sspDocs vsXY "q" 2 = Except.ok [docX, docY] ∧
    collectPortfolios loadsStr mkRawStr 2 [docX, docY] [] [] ≠ [] ∧
    ∃ item,
      search_similar_portfolios_sync vsXY loadsStr mkRawStr "q" 2 = [item]
      ∧ item ∈ collectPortfolios loadsStr mkRawStr 2 [docX, docY] [] []
      ∧ ∀ x ∈ collectPortfolios loadsStr mkRawStr 2 [docX, docY] [] [],
          x.timestamp ≤ item.timestamp :=
  ⟨rfl, by decide,
    ((claim_C10 String vsXY loadsStr mkRawStr "q" 2).2.2 [docX, docY]
      rfl).2 (by decide)⟩

/-- C5: the conditional edge out of the context-retrieved state has
exactly two destinations, `search_web` and `generate_response`, gated
solely by the boolean `needs_web_search`; both paths converge at the
response step, the executed trace is duplicate-free (no cycles or
re-entry) and ends at `generate_response`; and
`needs_web_search = false` implies the `search_web` node is never
invoked for that turn. -/
theorem claim_C5 : ∀ (P : Type) (O : Oracles P) (st : AgentState),
    (graphTrace O st =
      if should_search_web (pipeS2 O st) then
        [Node.classify, Node.retrieve, Node.searchW, Node.generate]
      else [Node.classify, Node.retrieve, Node.generate])
    ∧ (graphTrace O st).Nodup
    ∧ (graphTrace O st).getLast? = some Node.generate
    ∧ ((pipeS2 O st).needs_web_search = false →
        Node.searchW ∉ graphTrace O st)
    ∧ (∀ s s' : AgentState, s.needs_web_search = s'.needs_web_search →
        nextNode Node.retrieve s = nextNode Node.retrieve s')
    ∧ graphInvoke O st = generate_response O.genChain (pipeS3 O st) := by
  intro P O st
  obtain ⟨h1, h2⟩ := graphRun_eq O st
  refine ⟨h2, ?_, ?_, ?_, ?_, h1⟩
  · rw [h2]
    split <;> decide
  · rw [h2]
    split <;> rfl
  · intro hf
    rw [h2]
    have hssw : should_search_web (pipeS2 O st) = false := hf
    rw [hssw]
    decide
  · intro s s' hss
    simp [nextNode, should_search_web, hss]

/-- Witness for `claim_C5` on a concrete no-web-branch run. -/
theorem claim_C5_witness :
    (pipeS2 ONoWeb (initialState "show my holdings")).needs_web_search
      = false ∧
    Node.searchW ∉ graphTrace ONoWeb (initialState "show my holdings") :=
  ⟨by decide,
    (claim_C5 String ONoWeb (initialState "show my holdings")).2.2.2.1
      (by decide)⟩

/-- C7: whenever the store holds more than `MAX_PORTFOLIO_RECORDS` (= 5)
distinct portfolio records, the prune step deletes exactly the oldest
`count − 5` record ids — the ids list is sorted by timestamp, oldest
first, and the deleted ids are its first `count − 5` entries — keeping
the 5 most recent; with at most 5 records nothing is deleted; and a
similarity-search failure is swallowed (no deletions, no exception). -/
theorem claim_C7 :
    (∀ (vs : VectorStore) (docs : List Doc),
      vs.searchAll "portfolio" 1000 = Except.ok docs →
      ((portfolioDict docs).length ≤ MAX_PORTFOLIO_RECORDS →
        prune_old_records vs = [])
      ∧ ((portfolioDict docs).length > MAX_PORTFOLIO_RECORDS →
        prune_old_records vs =
          ((portfolioIdTimestamps docs).map Prod.fst).take
            ((portfolioIdTimestamps docs).length - MAX_PORTFOLIO_RECORDS)
        ∧ get_all_portfolio_ids vs =
            prune_old_records vs ++
            ((portfolioIdTimestamps docs).map Prod.fst).drop
              ((portfolioIdTimestamps docs).length - MAX_PORTFOLIO_RECORDS)
        ∧ (((portfolioIdTimestamps docs).map Prod.fst).drop
              ((portfolioIdTimestamps docs).length -
                MAX_PORTFOLIO_RECORDS)).length = MAX_PORTFOLIO_RECORDS
        ∧ (portfolioIdTimestamps docs).Pairwise (fun a b => a.2 ≤ b.2)))
    ∧ (∀ (vs : VectorStore) (e : String),
        vs.searchAll "portfolio" 1000 = Except.error e →
        prune_old_records vs = []) := by
  constructor
  · intro vs docs hok
    have hids : get_all_portfolio_ids vs =
        (portfolioIdTimestamps docs).map Prod.fst := by
      simp [get_all_portfolio_ids, hok]
    have hlen : (portfolioIdTimestamps docs).length =
        (portfolioDict docs).length := by
      simp [portfolioIdTimestamps]
    constructor
    · intro hle
      unfold prune_old_records
      rw [hids]
      rw [if_pos]
      simpa [hlen] using hle
    · intro hgt
      have hlen' : ((portfolioIdTimestamps docs).map Prod.fst).length =
          (portfolioIdTimestamps docs).length := List.length_map _ _
      have hgt' : ¬ ((portfolioIdTimestamps docs).map Prod.fst).length ≤
          MAX_PORTFOLIO_RECORDS := by
        rw [hlen', hlen]
        omega
      have hprune : prune_old_records vs =
          ((portfolioIdTimestamps docs).map Prod.fst).take
            ((portfolioIdTimestamps docs).length - MAX_PORTFOLIO_RECORDS) := by
        unfold prune_old_records
        rw [hids, if_neg hgt', hlen']
      refine ⟨hprune, ?_, ?_, ?_⟩
      · rw [hids, hprune]
        exact (List.take_append_drop _ _).symm
      · rw [List.length_drop, hlen', hlen]
        unfold MAX_PORTFOLIO_RECORDS
        unfold MAX_PORTFOLIO_RECORDS at hgt
        omega
      · exact mergeSort_asc_pairwise (fun p : String × String => p.2)
          (portfolioDict docs)
  · intro vs e herr
    simp [prune_old_records, get_all_portfolio_ids, herr, MAX_PORTFOLIO_RECORDS]

/-- Witness for `claim_C7` on a concrete six-record store: exactly the
single oldest record is deleted. -/
theorem claim_C7_witness :
    vs6.searchAll "portfolio" 1000 = Except.ok docs6 ∧
    (portfolioDict docs6).length > MAX_PORTFOLIO_RECORDS ∧
    (prune_old_records vs6 =
      ((portfolioIdTimestamps docs6).map Prod.fst).take
        ((portfolioIdTimestamps docs6).length - MAX_PORTFOLIO_RECORDS)
    ∧ get_all_portfolio_ids vs6 =
        prune_old_records vs6 ++
        ((portfolioIdTimestamps docs6).map Prod.fst).drop
          ((portfolioIdTimestamps docs6).length - MAX_PORTFOLIO_RECORDS)
    ∧ (((portfolioIdTimestamps docs6).map Prod.fst).drop
          ((portfolioIdTimestamps docs6).length -
            MAX_PORTFOLIO_RECORDS)).length = MAX_PORTFOLIO_RECORDS
    ∧ (portfolioIdTimestamps docs6).Pairwise (fun a b => a.2 ≤ b.2)) :=
  ⟨rfl, by decide, (claim_C7.1 vs6 docs6 rfl).2 (by decide)⟩

theorem classify_query_ok (c : String → Except String String)
    (s : AgentState) (r : String) (h : c s.query = Except.ok r) :
    classify_query c s =
      { s with needs_web_search := strContains r "NEEDS_WEB_SEARCH" } := by
  simp [classify_query, h]

theorem classify_query_err (c : String → Except String String)
    (s : AgentState) (e : String) (h : c s.query = Except.error e) :
    classify_query c s =
      { s with error := some ("Error classifying query: " ++ e) } := by
  simp [classify_query, h]

theorem retrieve_context_needs {P : Type} (d : P → String)
    (f : String → Nat → Except String (List (SPItem P))) (s : AgentState) :
    (retrieve_context d f s).needs_web_search = s.needs_web_search := by
  unfold retrieve_context
  cases f s.query 1 with
  | ok items => simp only; split <;> rfl
  | error e => rfl

theorem retrieve_context_error_ok {P : Type} (d : P → String)
    (f : String → Nat → Except String (List (SPItem P))) (s : AgentState)
    (items : List (SPItem P)) (h : f s.query 1 = Except.ok items) :
    (retrieve_context d f s).error = s.error := by
  unfold retrieve_context
  rw [h]
  simp only
  split <;> rfl

theorem generate_response_ok
    (g : String → String → String → Except String String) (s : AgentState)
    (r : String)
    (h : g s.query (portfolioContextArg s) (webSearchSection s)
      = Except.ok r) :
    generate_response g s =
      { s with
        response := r,
        chat_history := s.chat_history ++
          [⟨"user", s.query⟩, ⟨"assistant", r⟩] } := by
  simp [generate_response, h]

theorem generate_response_err
    (g : String → String → String → Except String String) (s : AgentState)
    (e : String)
    (h : g s.query (portfolioContextArg s) (webSearchSection s)
      = Except.error e) :
    generate_response g s =
      { s with
        error := some ("Error generating response: " ++ e),
        response := generateApology } := by
  simp [generate_response, h]

/-- C1: `process_query` returns status "error" with `message` equal to
the latest error recorded on the final state (each failing step
overwrites `error`, and a synthesis failure is surfaced even when earlier
steps failed) together with whatever partial response exists, whenever
any step set `state.error`; otherwise it returns status "success" with
the synthesized response and the chat history.  (On the error path the
result carries no `chat_history` key.) -/
theorem claim_C1 : ∀ (P : Type) (O : Oracles P) (query : String),
    (is_simple_query O.simpleClassify query = false →
      (∀ e, (graphInvoke O (initialState query)).error = some e →
        process_query O query =
          { status := "error",
            response := (graphInvoke O (initialState query)).response,
            chat_history := none, message := some e })
      ∧ ((graphInvoke O (initialState query)).error = none →
        process_query O query =
          { status := "success",
            response := (graphInvoke O (initialState query)).response,
            chat_history :=
              some (graphInvoke O (initialState query)).chat_history,
            message := none }))
    ∧ (is_simple_query O.simpleClassify query = true →
        (process_query O query).status = "success"
        ∧ (process_query O query).message = none)
    ∧ (∀ eg, (∀ a b c, O.genChain a b c = Except.error eg) →
        is_simple_query O.simpleClassify query = false →
        (process_query O query).status = "error"
        ∧ (process_query O query).message =
            some ("Error generating response: " ++ eg)) := by
  intro P O query
  refine ⟨?_, ?_, ?_⟩
  · intro hn
    constructor
    · intro e he
      simp [process_query, hn, he]
    · intro he
      simp [process_query, hn, he]
  · intro hy
    cases hc : O.simpleChain query <;>
      simp [process_query, hy, get_simple_response, hc]
  · intro eg hgen hn
    have herr : (graphInvoke O (initialState query)).error =
        some ("Error generating response: " ++ eg) := by
      rw [(graphRun_eq O (initialState query)).1]
      rw [generate_response_err O.genChain _ eg (hgen _ _ _)]
    constructor <;> simp [process_query, hn, herr]

/-- Witness for `claim_C1`: with a failing classification chain and a
failing synthesis chain, the surfaced message is the synthesis error
(the latest one recorded). -/
theorem claim_C1_witness :
    is_simple_query OGenFail.simpleClassify "what is my balance" = false ∧
    ((process_query OGenFail "what is my balance").status = "error"
    ∧ (process_query OGenFail "what is my balance").message =
        some ("Error generating response: " ++ "boom")) :=
  ⟨by decide,
    (claim_C1 String OGenFail "what is my balance").2.2 "boom"
      (fun _ _ _ => rfl) (by decide)⟩

/-- C2: whenever the returned result carries a `chat_history`, it is
exactly the two entries user-then-assistant for this invocation (the
initial history being empty), so its length is 2 (hence even) and it
ends with an assistant entry; and `_generate_response`, when its chain
succeeds, appends exactly the user/assistant pair to the running
history. -/
theorem claim_C2 : ∀ (P : Type) (O : Oracles P) (query : String),
    (∀ l, (process_query O query).chat_history = some l →
      l = [⟨"user", query⟩,
           ⟨"assistant", (process_query O query).response⟩]
      ∧ l.length = 2 ∧ l.length % 2 = 0
      ∧ l.getLast? =
          some ⟨"assistant", (process_query O query).response⟩)
    ∧ (∀ (g : String → String → String → Except String String)
        (s : AgentState) (resp : String),
        g s.query (portfolioContextArg s) (webSearchSection s)
          = Except.ok resp →
        (generate_response g s).chat_history =
          s.chat_history ++ [⟨"user", s.query⟩, ⟨"assistant", resp⟩]) := by
  intro P O query
  constructor
  · intro l hl
    cases hsimp : is_simple_query O.simpleClassify query with
    | true =>
      cases hc : O.simpleChain query with
      | ok r =>
        simp [process_query, hsimp, get_simple_response, hc] at hl ⊢
        subst hl
        refine ⟨rfl, rfl, by simp, rfl⟩
      | error e =>
        simp [process_query, hsimp, get_simple_response, hc] at hl ⊢
        subst hl
        refine ⟨rfl, rfl, by simp, rfl⟩
    | false =>
      cases herr : (graphInvoke O (initialState query)).error with
      | some e => simp [process_query, hsimp, herr] at hl
      | none =>
        cases hg : O.genChain (pipeS3 O (initialState query)).query
            (portfolioContextArg (pipeS3 O (initialState query)))
            (webSearchSection (pipeS3 O (initialState query))) with
        | error e =>
          rw [(graphRun_eq O (initialState query)).1,
            generate_response_err _ _ _ hg] at herr
          simp at herr
        | ok resp =>
          have hrec := generate_response_ok _ _ _ hg
          have hchat : (graphInvoke O (initialState query)).chat_history =
              [⟨"user", query⟩, ⟨"assistant", resp⟩] := by
            rw [(graphRun_eq O (initialState query)).1, hrec]
            simp only
            rw [pipeS3_chat, pipeS3_query]
            rfl
          have hresp : (graphInvoke O (initialState query)).response
              = resp := by
            rw [(graphRun_eq O (initialState query)).1, hrec]
          have hpq : process_query O query =
              { status := "success",
                response := (graphInvoke O (initialState query)).response,
                chat_history :=
                  some (graphInvoke O (initialState query)).chat_history,
                message := none } := by
            simp [process_query, hsimp, herr]
          rw [hpq] at hl ⊢
          simp only at hl ⊢
          rw [hchat] at hl
          cases hl
          rw [hresp]
          simp
  · intro g s resp h
    rw [generate_response_ok g s resp h]

/-- Witness for `claim_C2` on a concrete small-talk run. -/
theorem claim_C2_witness :
    (process_query OSimple "hello").chat_history =
      some [⟨"user", "hello"⟩,
            ⟨"assistant", "Hi! I can help with your portfolio."⟩] ∧
    (([⟨"user", "hello"⟩,
       ⟨"assistant", "Hi! I can help with your portfolio."⟩] :
        List ChatMsg) =
      [⟨"user", "hello"⟩,
       ⟨"assistant", (process_query OSimple "hello").response⟩]
    ∧ ([⟨"user", "hello"⟩,
        ⟨"assistant", "Hi! I can help with your portfolio."⟩] :
         List ChatMsg).length = 2
    ∧ ([⟨"user", "hello"⟩,
        ⟨"assistant", "Hi! I can help with your portfolio."⟩] :
         List ChatMsg).length % 2 = 0
    ∧ ([⟨"user", "hello"⟩,
        ⟨"assistant", "Hi! I can help with your portfolio."⟩] :
         List ChatMsg).getLast? =
        some ⟨"assistant", (process_query OSimple "hello").response⟩) :=
  ⟨by decide,
    (claim_C2 String OSimple "hello").1
      [⟨"user", "hello"⟩,
       ⟨"assistant", "Hi! I can help with your portfolio."⟩] (by decide)⟩

/-- C3 counterexample: on an exception raised by the web search tool
during invocation, the inner handler (lines 226-229) substitutes an
error-hit list but records NO error on state — `state.error` stays
`none`, refuting the claim's "an error is recorded internally on state";
the full pipeline run then reports status "success" with no message. -/
theorem claim_C3_counterexample :
    (search_web (fun _ => Except.error "boom") sC3).web_search_results =
      "Source: Error\nTitle: Search Failed\nContent: Web search tool error: boom\n"
    ∧ (search_web (fun _ => Except.error "boom") sC3).error = none
    ∧ (process_query OWeb
        "What is the current price trend for ETH?").status = "success"
    ∧ (process_query OWeb
        "What is the current price trend for ETH?").message = none := by
  refine ⟨?_, ?_, ?_, ?_⟩ <;> decide

/-- C3 (amended): on a search-tool exception during invocation,
`web_search_results` is set to the failure-explanation block built from
the substituted error hit, no error is recorded on state (`error` is
unchanged), and the pipeline still returns status "success" with a
best-effort answer when synthesis succeeds (and nothing else failed). -/
theorem claim_C3 : ∀ (P : Type) (O : Oracles P)
    (tool : String → Except String SearchResults) (s : AgentState)
    (query e cls : String) (items : List (SPItem P)),
    (tool (augmentQuery s.query) = Except.error e →
      (search_web tool s).web_search_results =
        formatHit ⟨some "Error", some "Search Failed",
          some ("Web search tool error: " ++ e), none⟩
      ∧ (search_web tool s).error = s.error)
    ∧ (is_simple_query O.simpleClassify query = false →
       O.classifyChain query = Except.ok cls →
       strContains cls "NEEDS_WEB_SEARCH" = true →
       O.storeSearch query 1 = Except.ok items →
       (∀ a b c, ∃ r, O.genChain a b c = Except.ok r) →
       (process_query O query).status = "success"
       ∧ (process_query O query).message = none) := by
  intro P O tool s query e cls items
  constructor
  · intro h
    constructor
    · unfold search_web
      simp only [h]
      rfl
    · exact search_web_error tool s
  · intro hn hcls hweb hstore hgen
    have h1 : classify_query O.classifyChain (initialState query) =
        { initialState query with
          needs_web_search := strContains cls "NEEDS_WEB_SEARCH" } :=
      classify_query_ok _ _ _ hcls
    have hs2err : (pipeS2 O (initialState query)).error = none := by
      unfold pipeS2
      rw [h1]
      rw [retrieve_context_error_ok O.dumps O.storeSearch _ items hstore]
      rfl
    have hs2needs :
        should_search_web (pipeS2 O (initialState query)) = true := by
      unfold pipeS2
      rw [h1]
      show (retrieve_context _ _ _).needs_web_search = true
      rw [retrieve_context_needs]
      exact hweb
    have hs3 : pipeS3 O (initialState query) =
        search_web O.searchTool (pipeS2 O (initialState query)) := by
      unfold pipeS3
      rw [hs2needs]
      rfl
    have hs3err : (pipeS3 O (initialState query)).error = none := by
      rw [hs3, search_web_error]
      exact hs2err
    obtain ⟨r, hr⟩ := hgen (pipeS3 O (initialState query)).query
      (portfolioContextArg (pipeS3 O (initialState query)))
      (webSearchSection (pipeS3 O (initialState query)))
    have hfinal : (graphInvoke O (initialState query)).error = none := by
      rw [(graphRun_eq O (initialState query)).1,
        generate_response_ok _ _ _ hr]
      exact hs3err
    constructor <;> simp [process_query, hn, hfinal]

/-- Witness for `claim_C3` on the concrete web-branch run whose search
tool raises. -/
theorem claim_C3_witness :
    OWeb.searchTool
      (augmentQuery "What is the current price trend for ETH?") =
      Except.error "network down" ∧
    ((process_query OWeb
        "What is the current price trend for ETH?").status = "success"
    ∧ (process_query OWeb
        "What is the current price trend for ETH?").message = none) :=
  ⟨rfl,
    (claim_C3 String OWeb OWeb.searchTool sC3
        "What is the current price trend for ETH?" "network down"
        "NEEDS_WEB_SEARCH" [itemF]).2
      (by decide) rfl (by decide) rfl
      (fun _ _ _ => ⟨"final answer", rfl⟩)⟩

/-- C4: for every query the small-talk classifier labels SIMPLE,
`process_query` short-circuits to `_get_simple_response`: the result
depends only on the small-talk oracles (so the retriever, the web
search tool and the pipeline chains are never invoked), has status
"success", and carries a two-entry user-then-assistant chat history. -/
theorem claim_C4 : ∀ (P : Type) (O O' : Oracles P) (query : String),
    is_simple_query O.simpleClassify query = true →
    process_query O query = get_simple_response O.simpleChain query
    ∧ (O'.simpleClassify = O.simpleClassify →
       O'.simpleChain = O.simpleChain →
        process_query O' query = process_query O query)
    ∧ (process_query O query).status = "success"
    ∧ (∃ resp, (process_query O query).chat_history =
        some [⟨"user", query⟩, ⟨"assistant", resp⟩]
      ∧ (process_query O query).response = resp) := by
  intro P O O' query h
  have hpq : process_query O query =
      get_simple_response O.simpleChain query := by
    simp [process_query, h]
  refine ⟨hpq, ?_, ?_, ?_⟩
  · intro h1 h2
    have h' : is_simple_query O'.simpleClassify query = true := by
      rw [h1]
      exact h
    rw [hpq]
    simp [process_query, h', h2]
  · rw [hpq]
    cases hc : O.simpleChain query <;> simp [get_simple_response, hc]
  · rw [hpq]
    cases hc : O.simpleChain query with
    | ok r =>
      exact ⟨r, by simp [get_simple_response, hc],
        by simp [get_simple_response, hc]⟩
    | error e =>
      exact ⟨simpleFallback, by simp [get_simple_response, hc],
        by simp [get_simple_response, hc]⟩

/-- Witness for `claim_C4` on a concrete SIMPLE-classified query. -/
theorem claim_C4_witness :
    is_simple_query OSimple.simpleClassify "hey there" = true ∧
    (process_query OSimple "hey there" =
      get_simple_response OSimple.simpleChain "hey there"
    ∧ (OSimple.simpleClassify = OSimple.simpleClassify →
       OSimple.simpleChain = OSimple.simpleChain →
        process_query OSimple "hey there" =
          process_query OSimple "hey there")
    ∧ (process_query OSimple "hey there").status = "success"
    ∧ (∃ resp, (process_query OSimple "hey there").chat_history =
        some [⟨"user", "hey there"⟩, ⟨"assistant", resp⟩]
      ∧ (process_query OSimple "hey there").response = resp)) :=
  ⟨by decide, claim_C4 String OSimple OSimple "hey there" (by decide)⟩

/-- C6: `_retrieve_context` asks the store for exactly the single top
match (its result depends only on the store's answer at
`(query, top_k = 1)`), renders every returned snapshot as
"LATEST PORTFOLIO DATA (as of timestamp):" followed by the payload dump,
substitutes the single explanatory fallback string when the store
returns nothing, and always produces a non-empty context. -/
theorem claim_C6 : ∀ (P : Type) (dumps : P → String)
    (search search' : String → Nat → Except String (List (SPItem P)))
    (s : AgentState),
    (search' s.query 1 = search s.query 1 →
      retrieve_context dumps search' s = retrieve_context dumps search s)
    ∧ (∀ items, search s.query 1 = Except.ok items →
        (retrieve_context dumps search s).context =
          (if items.isEmpty then [noDataFallback]
           else items.map (renderSnapshot dumps)))
    ∧ (∀ item : SPItem P, renderSnapshot dumps item =
        "LATEST PORTFOLIO DATA (as of " ++ item.timestamp ++ "):\n" ++
          dumps item.portfolio)
    ∧ (retrieve_context dumps search s).context ≠ [] := by
  intro P dumps search search' s
  refine ⟨?_, ?_, fun item => rfl, ?_⟩
  · intro h
    unfold retrieve_context
    rw [h]
  · intro items h
    cases items with
    | nil => simp [retrieve_context, h]
    | cons a t => simp [retrieve_context, h]
  · cases h : search s.query 1 with
    | ok items =>
      cases items with
      | nil => simp [retrieve_context, h, noDataFallback]
      | cons a t => simp [retrieve_context, h]
    | error e => simp [retrieve_context, h, retrievalErrorContext]

/-- Witness for `claim_C6` on a concrete one-snapshot store. -/
theorem claim_C6_witness :
    OWeb.storeSearch (initialState "what do I hold").query 1 =
      Except.ok [itemF] ∧
    (retrieve_context OWeb.dumps OWeb.storeSearch
        (initialState "what do I hold")).context =
      (if ([itemF] : List (SPItem String)).isEmpty then [noDataFallback]
       else [itemF].map (renderSnapshot OWeb.dumps)) :=
  ⟨rfl,
    (claim_C6 String OWeb.dumps OWeb.storeSearch OWeb.storeSearch
      (initialState "what do I hold")).2.1 [itemF] rfl⟩

/-- C8: `_search_web` invokes the tool on the query augmented with
" cryptocurrency binance" exactly when the lowercased query contains
none of the fixed crypto-domain keywords (its result depends only on the
tool's answer at the augmented query); every list-shaped result is
normalised into "Source: …\nTitle: …\nContent: …" blocks joined by
blank lines, with the literal placeholders "Unknown source", "No title"
and "No content available" substituted for missing fields. -/
theorem claim_C8 : ∀ (tool tool' : String → Except String SearchResults)
    (s : AgentState) (q : String),
    (tool' (augmentQuery s.query) = tool (augmentQuery s.query) →
      search_web tool' s = search_web tool s)
    ∧ (cryptoTerms.any (fun term => strContains (strToLower q) term)
        = false →
      augmentQuery q = q ++ " cryptocurrency binance")
    ∧ (cryptoTerms.any (fun term => strContains (strToLower q) term)
        = true →
      augmentQuery q = q)
    ∧ (∀ l, tool (augmentQuery s.query) = Except.ok (SearchResults.hits l) →
        (search_web tool s).web_search_results =
          (if l.isEmpty then "No relevant search results found."
           else String.intercalate "\n" (l.map formatHit)))
    ∧ (∀ so ti co sn, formatHit ⟨so, ti, co, sn⟩ =
        "Source: " ++ so.getD "Unknown source" ++
        "\nTitle: " ++ ti.getD "No title" ++
        "\nContent: " ++ co.getD (sn.getD "No content available") ++
        "\n") := by
  intro tool tool' s q
  refine ⟨?_, ?_, ?_, ?_, fun so ti co sn => rfl⟩
  · intro h
    unfold search_web
    simp only [h]
  · intro h
    simp [augmentQuery, h]
  · intro h
    simp [augmentQuery, h]
  · intro l h
    cases l with
    | nil => simp [search_web, h, formatSearchResults]
    | cons a t => simp [search_web, h, formatSearchResults]

/-- Witness for `claim_C8` on a concrete hit with every field absent. -/
theorem claim_C8_witness :
    ((fun _ => Except.ok
        (SearchResults.hits [⟨none, none, none, none⟩])) :
        String → Except String SearchResults)
      (augmentQuery (initialState "what is the price?").query) =
      Except.ok (SearchResults.hits [⟨none, none, none, none⟩]) ∧
    (search_web
        (fun _ => Except.ok (SearchResults.hits [⟨none, none, none, none⟩]))
        (initialState "what is the price?")).web_search_results =
      (if ([⟨none, none, none, none⟩] : List SearchHit).isEmpty then
        "No relevant search results found."
       else String.intercalate "\n"
        ([⟨none, none, none, none⟩].map formatHit)) :=
  ⟨rfl,
    (claim_C8
        (fun _ => Except.ok (SearchResults.hits [⟨none, none, none, none⟩]))
        (fun _ => Except.ok (SearchResults.hits [⟨none, none, none, none⟩]))
        (initialState "what is the price?") "x").2.2.2.1
      [⟨none, none, none, none⟩] rfl⟩

/-- C9: a failing small-talk classification defaults to COMPLEX
(`_is_simple_query` returns false, so the full pipeline runs); a failing
`_classify_query` records an error on state but leaves
`needs_web_search` at its pre-call value — `false` for the pipeline's
initial state — and the pipeline still proceeds through the remaining
steps (the retrieve and generate nodes are always executed). -/
theorem claim_C9 : ∀ (P : Type) (O : Oracles P) (st : AgentState)
    (query : String) (c : String → Except String String) (e : String),
    (c query = Except.error e → is_simple_query c query = false)
    ∧ (O.classifyChain st.query = Except.error e →
        (classify_query O.classifyChain st).needs_web_search =
          st.needs_web_search
        ∧ (classify_query O.classifyChain st).error =
            some ("Error classifying query: " ++ e))
    ∧ (O.classifyChain query = Except.error e →
        (classify_query O.classifyChain (initialState query)).needs_web_search
          = false)
    ∧ Node.retrieve ∈ graphTrace O st
    ∧ Node.generate ∈ graphTrace O st := by
  intro P O st query c e
  refine ⟨?_, ?_, ?_, ?_, ?_⟩
  · intro h
    simp [is_simple_query, h]
  · intro h
    rw [classify_query_err O.classifyChain st e h]
    exact ⟨rfl, rfl⟩
  · intro h
    rw [classify_query_err O.classifyChain (initialState query) e h]
    rfl
  · rw [(graphRun_eq O st).2]
    split <;> decide
  · rw [(graphRun_eq O st).2]
    split <;> decide

/-- Witness for `claim_C9` on a concrete failing classification chain. -/
theorem claim_C9_witness :
    OGenFail.classifyChain
      (initialState "how did my portfolio do?").query =
      Except.error "llm down" ∧
    ((classify_query OGenFail.classifyChain
        (initialState "how did my portfolio do?")).needs_web_search =
      (initialState "how did my portfolio do?").needs_web_search
    ∧ (classify_query OGenFail.classifyChain
        (initialState "how did my portfolio do?")).error =
        some ("Error classifying query: " ++ "llm down")) :=
  ⟨rfl,
    (claim_C9 String OGenFail (initialState "how did my portfolio do?")
      "how did my portfolio do?" OGenFail.simpleClassify "llm down").2.1
      rfl⟩

end FinPilot
